import Mathlib

/-!
Shallow embedding of the TTS task-pipeline repository:
`src/services/queue_manager.py`, `src/app.py`, `src/process_worker.py`,
`src/upload_worker.py`.  Wall-clock timestamps and scores are modelled as
rationals; Python dict payloads as structures with optional fields; Redis data
structures as Lean lists.
-/

namespace TTS

/-! ## Process queue and scoring (`src/services/queue_manager.py`) -/

/-- `_calculate_score` (queue_manager.py:17-23): `score = (6 - priority) * timestamp`.
The wall-clock read `time.time()` is the `timestamp` argument. -/
def calculate_score (priority : ℤ) (timestamp : ℚ) : ℚ :=
  (6 - priority) * timestamp

/-- The task payload dict built by `clone_single` (app.py:154-160). -/
structure TaskData where
  text : String
  language : String
  spk_audio_prompt : String
  hook_url : String
  priority : ℤ
  deriving Repr, DecidableEq

/-- The task dict serialized into the process queue (`add_task`, queue_manager.py:84-89). -/
structure Task where
  task_id : String
  priority : ℤ
  created_at : ℚ
  data : TaskData
  deriving Repr, DecidableEq

/-- The Redis ZSET behind the process queue: members (serialized tasks) with
numeric scores.  Members are kept in insertion order; ordering by score is the
job of `zpopmax` below. -/
abbrev ProcessQueue : Type := List (Task × ℚ)

/-- Redis `ZADD key {member: score}`: inserts the member, or updates its score
when the member is already present (ZSET member uniqueness). -/
def zadd (q : ProcessQueue) (member : Task) (score : ℚ) : ProcessQueue :=
  if (List.any q fun p => p.1 = member) then
    List.map (fun p => if p.1 = member then (member, score) else p) q
  else
    q ++ [(member, score)]

/-- Redis `ZPOPMAX key 1`: removes and returns the member with the maximum
score.  Redis breaks score ties by member lexicographic order; this embedding
takes the leftmost member of maximal score, and every theorem below invokes it
only where the maximal score is strict, so the tie-break is unobservable. -/
def zpopmax : List (Task × ℚ) → Option ((Task × ℚ) × List (Task × ℚ))
  | [] => none
  | x :: xs =>
    match zpopmax xs with
    | none => some (x, [])
    | some (m, rest) => if x.2 < m.2 then some (m, x :: rest) else some (x, xs)

/-- Redis `ZREM key member`: removes the member, returning how many elements
were removed. -/
def zrem (q : ProcessQueue) (member : Task) : ℕ × ProcessQueue :=
  ((List.filter (fun p => p.1 = member) q).length,
   List.filter (fun p => ¬ p.1 = member) q)

/-- `QueueManager.add_task` (queue_manager.py:71-98): builds the task dict with
a fresh uuid, computes the score with `_calculate_score`, and ZADDs it.  Python
reads the clock twice in this function (`created_at` and inside
`_calculate_score`); both reads are the admission time `now`. -/
def add_task (q : ProcessQueue) (task_id : String) (task_data : TaskData)
    (priority : ℤ) (now : ℚ) : ProcessQueue × String :=
  let task : Task := ⟨task_id, priority, now, task_data⟩
  let score := calculate_score priority now
  (zadd q task score, task_id)

/-- `QueueManager.get_process_task` (queue_manager.py:100-117): ZPOPMAX; returns
`none` when the queue is empty, else the popped task. -/
def get_process_task (q : ProcessQueue) : Option Task × ProcessQueue :=
  match zpopmax q with
  | none => (none, q)
  | some (member, rest) => (some member.1, rest)

/-- The scan-and-remove loop of `QueueManager.delete_process_task`
(queue_manager.py:212-229): iterate over the ZRANGE snapshot; at the first
member whose `task_id` matches, ZREM it and return true when ZREM confirms it
removed something, else keep scanning; return false after the scan.
The snapshot is iterated in Redis score order in Python; task ids are unique
uuids so at most one member matches and the iteration order is unobservable. -/
def delete_scan_loop (tid : String) : List (Task × ℚ) → ProcessQueue → Bool × ProcessQueue
  | [], q => (false, q)
  | m :: rest, q =>
    if m.1.task_id = tid then
      let r := zrem q m.1
      if 0 < r.1 then (true, r.2) else delete_scan_loop tid rest r.2
    else
      delete_scan_loop tid rest q

/-- `QueueManager.delete_process_task` (queue_manager.py:165-229). -/
def delete_process_task (q : ProcessQueue) (tid : String) : Bool × ProcessQueue :=
  delete_scan_loop tid q q

/-! ## Submission gateway and cancel endpoint (`src/app.py`) -/

/-- The JSON body of a `/generate` request as read by `clone_single`
(app.py:129-135): `data.get(...)` yields `none` for a missing key;
`params.get('language', 'en')` and `data.get('priority', 3)` supply defaults. -/
structure GenerateRequest where
  text : Option String
  spk_audio_prompt : Option String
  priority : Option ℤ
  hook_url : Option String
  language : Option String
  deriving Repr, DecidableEq

/-- Python falsiness of an optional string field: `None` and `""` are falsy. -/
def falsy (o : Option String) : Bool :=
  Option.getD o "" = ""

/-- A `/generate` response body. -/
inductive GenBody where
  | err (msg : String)
  | queued (task_uuid status message : String)
  deriving Repr, DecidableEq

/-- `clone_single` (app.py:128-171): validation chain, then `add_task` and a
201 response.  `supported` is `config['voice_clone']['supported_languages']`;
`fresh_id` the uuid `add_task` generates; `now` the admission clock. -/
def clone_single (supported : List String) (req : GenerateRequest)
    (fresh_id : String) (now : ℚ) (q : ProcessQueue) :
    (ℕ × GenBody) × ProcessQueue :=
  let priority := Option.getD req.priority 3
  let language := Option.getD req.language "en"
  if falsy req.text then
    ((400, GenBody.err "Missing required field: text"), q)
  else if falsy req.hook_url then
    ((400, GenBody.err "Missing required field: hook_url"), q)
  else if falsy req.spk_audio_prompt then
    ((400, GenBody.err "Missing required field: spk_audio_prompt"), q)
  else if ¬ (1 ≤ priority ∧ priority ≤ 5) then
    ((400, GenBody.err "Priority must be between 1 and 5"), q)
  else if ¬ language ∈ supported then
    ((400, GenBody.err ("Unsupported language: " ++ language)), q)
  else
    let task_data : TaskData :=
      ⟨Option.getD req.text "", language, Option.getD req.spk_audio_prompt "",
       Option.getD req.hook_url "", priority⟩
    let r := add_task q fresh_id task_data priority now
    ((201, GenBody.queued r.2 "queued" "Task added to queue successfully"), r.1)

/-- `cancel_task` (app.py:178-197): delegates to `delete_process_task` and
returns 200 with status "canceled" whether or not the task was found. -/
def cancel_task (q : ProcessQueue) (task_id : String) :
    (ℕ × String) × ProcessQueue :=
  if task_id = "" then
    ((400, "Missing required field: task_id"), q)
  else
    let r := delete_process_task q task_id
    ((200, "canceled"), r.2)

/-! ## Callback delivery (`src/upload_worker.py:34-100`, `src/process_worker.py:32-55`)

Exceptions raised by `requests.post(...)` / `raise_for_status()` and the
`try/except` handler chains are embedded explicitly, so that "an exception
escapes the function" is representable and provably absent. -/

/-- The exceptions the delivery code can see, with the hierarchy
`HTTPError ⊂ RequestException ⊂ Exception`. -/
inductive PyExc where
  | httpError (status : ℕ)
  | requestException
  | otherException
  deriving Repr, DecidableEq

/-- The exception classes named by the `except` clauses. -/
inductive ExcClass where
  | httpErrorC
  | requestExceptionC
  | exceptionC
  deriving Repr, DecidableEq

/-- Python `isinstance` against the `requests` exception hierarchy:
`HTTPError` is a `RequestException`, and every `RequestException` (and any
other modelled exception) is an `Exception`. -/
def isInstance : PyExc → ExcClass → Bool
  | PyExc.httpError _, _ => true
  | PyExc.requestException, ExcClass.httpErrorC => false
  | PyExc.requestException, _ => true
  | PyExc.otherException, ExcClass.exceptionC => true
  | PyExc.otherException, _ => false

/-- What one `requests.post` call does: return a response with a status code,
raise a `RequestException` (network error / timeout), or raise some other
exception. -/
inductive PostOutcome where
  | response (status : ℕ)
  | netFail
  | otherFail
  deriving Repr, DecidableEq

/-- The exception raised by `requests.post(...)` followed by
`response.raise_for_status()`: `raise_for_status` raises `HTTPError` exactly
for status codes 400-599. -/
def raisedBy : PostOutcome → Option PyExc
  | PostOutcome.response s =>
      if 400 ≤ s ∧ s < 600 then some (PyExc.httpError s) else none
  | PostOutcome.netFail => some PyExc.requestException
  | PostOutcome.otherFail => some PyExc.otherException

/-- What a loop body iteration decides: return from the function, break out of
the retry loop, continue with the next attempt, or let an uncaught exception
propagate out of the function. -/
inductive LoopAct where
  | ret
  | brk
  | cont
  | propagate (e : PyExc)
  deriving Repr, DecidableEq

/-- Run a `try/except` handler chain on a raised exception: the first clause
whose class matches handles it; with no matching clause the exception
propagates. -/
def runHandlers : List (ExcClass × (PyExc → LoopAct)) → PyExc → LoopAct
  | [], e => LoopAct.propagate e
  | (c, body) :: rest, e =>
      if isInstance e c then body e else runHandlers rest e

/-- The handler chain of `send_callback` (upload_worker.py:83-98): `HTTPError`
→ break on a permanent 4xx (other than 408/429) else continue (transient);
`RequestException` → continue; `Exception` → break (unexpected error, give
up). -/
def send_callback_handlers : List (ExcClass × (PyExc → LoopAct)) :=
  [(ExcClass.httpErrorC, fun e =>
      match e with
      | PyExc.httpError s =>
          if 400 ≤ s ∧ s < 500 ∧ ¬ s = 408 ∧ ¬ s = 429 then LoopAct.brk
          else LoopAct.cont
      | _ => LoopAct.cont),
   (ExcClass.requestExceptionC, fun _ => LoopAct.cont),
   (ExcClass.exceptionC, fun _ => LoopAct.brk)]

/-- One attempt of the `send_callback` retry loop: a non-error response returns
from the function; a raised exception goes through the handler chain. -/
def send_callback_attempt (o : PostOutcome) : LoopAct :=
  match raisedBy o with
  | none => LoopAct.ret
  | some e => runHandlers send_callback_handlers e

/-- `MAX_RETRIES` (upload_worker.py:60). -/
def MAX_RETRIES : ℕ := 10

/-- `INITIAL_DELAY` (upload_worker.py:61). -/
def INITIAL_DELAY : ℚ := 1

/-- The per-attempt timeout passed to `requests.post` in both `send_callback`
(upload_worker.py:76) and `send_callback_failure` (process_worker.py:50). -/
def CALLBACK_TIMEOUT : ℕ := 10

/-- `delay = INITIAL_DELAY * (2 ** attempt) + (time.time() * 0.01) % 1`
(upload_worker.py:65); the jitter term is the function `jitter`, valued in
[0, 1). -/
def delayAt (jitter : ℕ → ℚ) (attempt : ℕ) : ℚ :=
  INITIAL_DELAY * 2 ^ attempt + jitter attempt

/-- The actual sleep before attempt `attempt` (for `attempt > 0`):
`time.sleep(min(delay, 60))` (upload_worker.py:70). -/
def sleepAt (jitter : ℕ → ℚ) (attempt : ℕ) : ℚ :=
  min (delayAt jitter attempt) 60

/-- Observable outcome of one `send_callback` / `send_callback_failure` call:
how many POST attempts were made, whether one succeeded, the sleeps performed
between attempts in order, and the exception propagating out of the function
if any (always `none`, proved below). -/
structure CallbackRun where
  attempts : ℕ
  delivered : Bool
  sleeps : List ℚ
  propagated : Option PyExc
  deriving Repr, DecidableEq

/-- The retry loop of `send_callback` (upload_worker.py:63-98), unrolled from
attempt index `a` with `fuel` loop iterations remaining (`fuel = MAX_RETRIES -
a`).  Falling off the loop (fuel exhausted) reaches the final log line and
returns normally. -/
def send_callback_loop (endpoint : ℕ → PostOutcome) (jitter : ℕ → ℚ) :
    ℕ → ℕ → CallbackRun
  | 0, _ => ⟨0, false, [], none⟩
  | fuel + 1, a =>
    let s := if 0 < a then [sleepAt jitter a] else []
    match send_callback_attempt (endpoint a) with
    | LoopAct.ret => ⟨1, true, s, none⟩
    | LoopAct.brk => ⟨1, false, s, none⟩
    | LoopAct.propagate e => ⟨1, false, s, some e⟩
    | LoopAct.cont =>
      let r := send_callback_loop endpoint jitter fuel (a + 1)
      ⟨r.attempts + 1, r.delivered, s ++ r.sleeps, r.propagated⟩

/-- `send_callback` (upload_worker.py:34-100): immediate return on a falsy
callback URL, else the retry loop over `MAX_RETRIES` attempts.  `endpoint a`
is what the POST of attempt `a` does. -/
def send_callback (callback_url : String) (endpoint : ℕ → PostOutcome)
    (jitter : ℕ → ℚ) : CallbackRun :=
  if callback_url = "" then ⟨0, false, [], none⟩
  else send_callback_loop endpoint jitter MAX_RETRIES 0

/-- `send_callback_failure` (process_worker.py:32-55): immediate return on a
falsy callback URL, else a single POST inside `try ... except Exception`. -/
def send_callback_failure (callback_url : String) (outcome : PostOutcome) :
    CallbackRun :=
  if callback_url = "" then ⟨0, false, [], none⟩
  else
    match raisedBy outcome with
    | none => ⟨1, true, [], none⟩
    | some e =>
      match runHandlers [(ExcClass.exceptionC, fun _ => LoopAct.brk)] e with
      | LoopAct.propagate e2 => ⟨1, false, [], some e2⟩
      | _ => ⟨1, false, [], none⟩

/-! ## Callback payloads -/

/-- A callback JSON body; absent keys are `none`.  `urls` is the flattened
batch mapping (`callback_data.update(result)` for a dict result). -/
structure CallbackPayload where
  task_uuid : String
  status : String
  timestamp : ℤ
  s3_url : Option String := none
  urls : Option (List (String × String)) := none
  error_message : Option String := none
  error_code : Option String := none
  deriving Repr, DecidableEq

/-- The `result` argument of `send_callback`: a single-file URL string or a
batch dict containing a `urls` mapping. -/
inductive UploadResult where
  | single (url : String)
  | batch (urls : List (String × String))
  deriving Repr, DecidableEq

/-- The `callback_data` dict built by `send_callback` (upload_worker.py:40-58):
`task_uuid`/`status`/`timestamp` always; on success `s3_url` for a string
result or the batch mapping for a dict result; on failure `error_message` and,
when truthy, `error_code`. -/
def build_callback_data (task_id status : String) (result : Option UploadResult)
    (error error_code : Option String) (now : ℤ) : CallbackPayload :=
  let base : CallbackPayload := ⟨task_id, status, now, none, none, none, none⟩
  if status = "success" then
    match result with
    | some (UploadResult.single url) => { base with s3_url := some url }
    | some (UploadResult.batch m) => { base with urls := some m }
    | none => base
  else if status = "failed" then
    { base with
      error_message := error,
      error_code := if Option.getD error_code "" = "" then none else error_code }
  else base

/-- The `callback_data` dict built by `send_callback_failure`
(process_worker.py:37-46): always `task_uuid`, `status='failed'`, `timestamp`,
`error_message`; `error_code` only when truthy. -/
def build_failure_callback_data (task_id error : String)
    (error_code : Option String) (now : ℤ) : CallbackPayload :=
  { task_uuid := task_id, status := "failed", timestamp := now,
    error_message := some error,
    error_code := if Option.getD error_code "" = "" then none else error_code }

/-! ## Delivery worker (`src/upload_worker.py:103-160`) -/

/-- Observable side effects of the delivery worker, in program order:
an `upload_file` invocation on a path, an `os.remove` of a path, and a
`send_callback` invocation with its payload. -/
inductive Ev where
  | upload (path : String)
  | remove (path : String)
  | callback (url : String) (payload : CallbackPayload)
  deriving Repr, DecidableEq

/-- The `for output_path in output_paths` loop of `cleanup_local_files`
(upload_worker.py:109-112): `if os.path.exists(p): os.remove(p)`.  Returns the
remove events in order and the filesystem afterwards. -/
def cleanup_loop : List String → List String → List Ev × List String
  | [], fs => ([], fs)
  | p :: rest, fs =>
    if p ∈ fs then
      let r := cleanup_loop rest (List.filter (fun q => ¬ q = p) fs)
      (Ev.remove p :: r.1, r.2)
    else cleanup_loop rest fs

/-- `cleanup_local_files` (upload_worker.py:103-115): when cleanup is
requested, `os.remove` each path in `output_paths` that exists in the local
filesystem `fs`. -/
def cleanup_local_files (output_paths : List String) (should_cleanup : Bool)
    (fs : List String) : List Ev × List String :=
  if ¬ should_cleanup then ([], fs)
  else cleanup_loop output_paths fs

/-- Recognizer for upload events, used to state which paths reach the storage
collaborator. -/
def is_upload_ev : Ev → Bool
  | Ev.upload _ => true
  | _ => false

/-- An upload-queue item, as built by `process_single_task`
(process_worker.py:89-94) and read by `process_upload_task`
(upload_worker.py:125-128).  `cleanup_after_upload` is the
`config.get('cleanup_after_upload', True)` key of the item's `config` dict. -/
structure UploadTask where
  task_id : String
  hook_url : Option String
  output_paths : List String
  cleanup_after_upload : Option Bool
  deriving Repr, DecidableEq

/-- `process_upload_task` (upload_worker.py:118-160): upload `output_paths[0]`
to R2, clean up local files, send the success callback; on any exception,
clean up local files anyway and send a failure callback.  `uploader p` is what
`r2_uploader.upload_file` does on path `p` — a public URL or a raised
exception message; an empty `output_paths` makes `output_paths[0]` raise
`IndexError`, landing in the same `except` branch. -/
def process_upload_task (t : UploadTask)
    (uploader : String → Except String String) (fs : List String) (now : ℤ) :
    List Ev × List String :=
  let should_cleanup := Option.getD t.cleanup_after_upload true
  let failure_path := fun (msg : String) (upload_evs : List Ev) =>
    let error_msg := "R2 upload/Callback failed: " ++ msg
    let c := cleanup_local_files t.output_paths should_cleanup fs
    let cb :=
      if falsy t.hook_url then []
      else [Ev.callback (Option.getD t.hook_url "")
              (build_callback_data t.task_id "failed" none (some error_msg)
                none now)]
    (upload_evs ++ c.1 ++ cb, c.2)
  match t.output_paths with
  | [] => failure_path "list index out of range" []
  | p0 :: _ =>
    match uploader p0 with
    | Except.error msg => failure_path msg [Ev.upload p0]
    | Except.ok file_url =>
      let c := cleanup_local_files t.output_paths should_cleanup fs
      let cb :=
        if falsy t.hook_url then []
        else [Ev.callback (Option.getD t.hook_url "")
                (build_callback_data t.task_id "success"
                  (some (UploadResult.single file_url)) none none now)]
      (Ev.upload p0 :: c.1 ++ cb, c.2)

/-! ## Processing worker (`src/process_worker.py:58-124`) -/

/-- Outcome of `voice_processor.process_single`: the output path of a
successful synthesis, an `AudioTooQuietError` (whose `error_code` attribute
defaults to "AUDIO_TOO_QUIET", voice_processor.py:17-25), or any other
exception. -/
inductive SynthOutcome where
  | success (output_path : String)
  | audioTooQuiet (msg : String) (error_code : String)
  | otherError (msg : String)
  deriving Repr, DecidableEq

/-- Observable side effects of `process_single_task`, in program order. -/
structure WorkerEffects where
  upload_pushes : List UploadTask
  callbacks : List (String × CallbackPayload)
  removed_files : List String
  deriving Repr, DecidableEq

/-- `process_single_task` (process_worker.py:58-124).  On success, push the
result to the upload queue (no callback here).  On `AudioTooQuietError`, send
a failure callback with the error's code; on any other exception, send a
failure callback with a prefixed message and no code.  In both handlers the
local `output_path` is still `None` — the exception comes out of
`voice_processor.process_single` before its result is assigned — so the
`if output_path and os.path.exists(output_path)` removal has nothing to
remove.  `config_task_cleanup` is `config['task'].get('cleanup_after_upload')`
carried into the upload item. -/
def process_single_task (task : Task) (synth : SynthOutcome)
    (fs : List String) (now : ℤ) (config_task_cleanup : Option Bool) :
    WorkerEffects :=
  let hook_url := task.data.hook_url
  match synth with
  | SynthOutcome.success output_path =>
    { upload_pushes :=
        [⟨task.task_id, some hook_url, [output_path], config_task_cleanup⟩],
      callbacks := [], removed_files := [] }
  | SynthOutcome.audioTooQuiet msg code =>
    let output_path : Option String := none
    { upload_pushes := [],
      callbacks :=
        if hook_url = "" then []
        else [(hook_url, build_failure_callback_data task.task_id msg
                 (some code) now)],
      removed_files :=
        match output_path with
        | some p => if p ∈ fs then [p] else []
        | none => [] }
  | SynthOutcome.otherError msg =>
    let output_path : Option String := none
    { upload_pushes := [],
      callbacks :=
        if hook_url = "" then []
        else [(hook_url, build_failure_callback_data task.task_id
                 ("Voice clone failed: " ++ msg) none now)],
      removed_files :=
        match output_path with
        | some p => if p ∈ fs then [p] else []
        | none => [] }

/-- The `error_code` default of `AudioTooQuietError`
(voice_processor.py:20-21). -/
def AUDIO_TOO_QUIET_CODE : String := "AUDIO_TOO_QUIET"

/-! ## Concrete sample inputs -/

/-- A sample task payload (the §8 round-trip example request). -/
def sampleData : TaskData :=
  ⟨"hello", "en", "http://y/a.wav", "http://x", 3⟩

/-- A sample task admitted at time 100 with priority 5. -/
def sampleTaskP5 : Task := ⟨"A", 5, 100, sampleData⟩

/-- A sample task admitted at time 100 with priority 1. -/
def sampleTaskP1 : Task := ⟨"B", 1, 100, sampleData⟩

/-- A sample upload-queue item with two output artifacts and cleanup turned
off. -/
def sampleUploadTask : UploadTask :=
  ⟨"t1", some "http://h", ["a", "b"], some false⟩

/-! # Theorems -/

/-! ## Queue lemmas -/

theorem zpopmax_eq_none_iff (q : List (Task × ℚ)) :
    zpopmax q = none ↔ q = [] := by
  cases q with
  | nil => simp [zpopmax]
  | cons x xs =>
    simp only [zpopmax]
    cases hz : zpopmax xs with
    | none => simp
    | some pr => obtain ⟨m, rest⟩ := pr; by_cases h : x.2 < m.2 <;> simp [h]

theorem zpopmax_mem {q : List (Task × ℚ)} {m : Task × ℚ}
    {rest : List (Task × ℚ)} (h : zpopmax q = some (m, rest)) : m ∈ q := by
  induction q generalizing m rest with
  | nil => simp [zpopmax] at h
  | cons x xs ih =>
    simp only [zpopmax] at h
    split at h
    · simp only [Option.some.injEq, Prod.mk.injEq] at h
      rw [← h.1]; exact List.mem_cons_self x xs
    · rename_i m' rest' hz
      split at h
      · simp only [Option.some.injEq, Prod.mk.injEq] at h
        exact List.mem_cons_of_mem x (h.1 ▸ ih hz)
      · simp only [Option.some.injEq, Prod.mk.injEq] at h
        rw [← h.1]; exact List.mem_cons_self x xs

theorem zpopmax_of_strict_max (q : List (Task × ℚ)) (m : Task × ℚ)
    (hm : m ∈ q) (hmax : ∀ p ∈ q, p ≠ m → p.2 < m.2) :
    zpopmax q = some (m, q.erase m) := by
  induction q with
  | nil => cases hm
  | cons x xs ih =>
    by_cases hxe : x = m
    · subst hxe
      cases hz : zpopmax xs with
      | none =>
        have hnil : xs = [] := (zpopmax_eq_none_iff xs).mp hz
        subst hnil
        simp [zpopmax, List.erase_cons_head]
      | some pr =>
        obtain ⟨m', rest'⟩ := pr
        have hm' : m' ∈ xs := zpopmax_mem hz
        have hnlt : ¬ x.2 < m'.2 := by
          by_cases he : m' = x
          · subst he; exact lt_irrefl _
          · exact not_lt.mpr
              (le_of_lt (hmax m' (List.mem_cons_of_mem _ hm') he))
        simp [zpopmax, hz, hnlt, List.erase_cons_head]
    · have hmxs : m ∈ xs := by
        rcases List.mem_cons.mp hm with h | h
        · exact absurd h.symm hxe
        · exact h
      have hz : zpopmax xs = some (m, xs.erase m) :=
        ih hmxs (fun p hp hne => hmax p (List.mem_cons_of_mem _ hp) hne)
      have hlt : x.2 < m.2 := hmax x (List.mem_cons_self x xs) hxe
      have herase : (x :: xs).erase m = x :: xs.erase m := by
        rw [List.erase_cons_tail]
        simp [hxe]
      simp [zpopmax, hz, hlt, herase]

/-- C1: the claim as stated is false on the code.  Two tasks admitted at the
same time 100, one with priority 5 (the claim's "highest"), one with
priority 1: the priority-5 task's score is strictly *smaller*, and
`get_process_task` dequeues the priority-1 task first — the code (and
queue_manager.py's own docstring) treat 1, not 5, as the highest priority. -/
theorem C1_counterexample :
    calculate_score 5 100 < calculate_score 1 100 ∧
    (get_process_task
      [(sampleTaskP5, calculate_score 5 100),
       (sampleTaskP1, calculate_score 1 100)]).1 = some sampleTaskP1 := by
  have h5 : calculate_score 5 100 = 100 := by norm_num [calculate_score]
  have h1 : calculate_score 1 100 = 500 := by norm_num [calculate_score]
  constructor
  · rw [h5, h1]; norm_num
  · have hlt : calculate_score 5 100 < calculate_score 1 100 := by
      rw [h5, h1]; norm_num
    simp [get_process_task, zpopmax, hlt]

/-- C1 (amended): for two tasks admitted at the same admission time, the task
with the numerically *smaller* priority value has the strictly larger score
— under `score = (6 - priority) * timestamp` the code treats priority 1 as
highest and 5 as lowest — and `get_process_task` dequeues it first, whichever
order the two tasks sit in the queue. -/
theorem C1_priority_order (p₁ p₂ : ℤ) (t : ℚ) (task₁ task₂ : Task)
    (h1 : 1 ≤ p₁) (h12 : p₁ < p₂) (h5 : p₂ ≤ 5) (ht : 0 < t) :
    calculate_score p₂ t < calculate_score p₁ t ∧
    (get_process_task
      [(task₁, calculate_score p₁ t), (task₂, calculate_score p₂ t)]).1
      = some task₁ ∧
    (get_process_task
      [(task₂, calculate_score p₂ t), (task₁, calculate_score p₁ t)]).1
      = some task₁ := by
  have hlt : calculate_score p₂ t < calculate_score p₁ t := by
    unfold calculate_score
    have hpq : (p₁ : ℚ) < (p₂ : ℚ) := by exact_mod_cast h12
    have hcoe : (6 : ℚ) - (p₂ : ℚ) < 6 - (p₁ : ℚ) := by linarith
    exact mul_lt_mul_of_pos_right hcoe ht
  refine ⟨hlt, ?_, ?_⟩
  · simp [get_process_task, zpopmax, not_lt.mpr hlt.le]
  · simp [get_process_task, zpopmax, hlt]

/-- Witness for `C1_priority_order` at priorities 1 and 5, time 100. -/
theorem C1_priority_order_witness :
    calculate_score 5 100 < calculate_score 1 100 ∧
    (get_process_task
      [(sampleTaskP1, calculate_score 1 100),
       (sampleTaskP5, calculate_score 5 100)]).1 = some sampleTaskP1 :=
  ⟨(C1_priority_order 1 5 100 sampleTaskP1 sampleTaskP5 (by norm_num)
      (by norm_num) (by norm_num) (by norm_num)).1,
   (C1_priority_order 1 5 100 sampleTaskP1 sampleTaskP5 (by norm_num)
      (by norm_num) (by norm_num) (by norm_num)).2.1⟩

/-- C2: `add_task` attaches score `(K + 1 - priority) * admission_timestamp`
with `K = 5` — i.e. `(6 - priority) * now` — to the freshly serialized task;
`get_process_task` removes and returns exactly the member with the (strictly)
maximum score; and on the empty queue it returns `none` and changes nothing. -/
theorem C2_enqueue_score_dequeue_max (q : ProcessQueue) (task_id : String)
    (data : TaskData) (priority : ℤ) (now : ℚ) (m : Task × ℚ)
    (hfresh : ∀ p ∈ q, ¬ p.1 = (⟨task_id, priority, now, data⟩ : Task))
    (hm : m ∈ q) (hmax : ∀ p ∈ q, p ≠ m → p.2 < m.2) :
    (add_task q task_id data priority now).1
      = q ++ [(⟨task_id, priority, now, data⟩, (6 - priority) * now)] ∧
    get_process_task q = (some m.1, q.erase m) ∧
    get_process_task ([] : ProcessQueue) = (none, []) := by
  refine ⟨?_, ?_, rfl⟩
  · have hany : (List.any q fun p =>
        p.1 = (⟨task_id, priority, now, data⟩ : Task)) = false := by
      simp only [List.any_eq_false, decide_eq_true_eq]
      exact hfresh
    simp [add_task, zadd, calculate_score, hany]
  · simp [get_process_task, zpopmax_of_strict_max q m hm hmax]

/-- Witness for `C2_enqueue_score_dequeue_max` on a concrete queue. -/
theorem C2_enqueue_score_dequeue_max_witness :
    (add_task [(sampleTaskP1, calculate_score 1 100)] "C" sampleData 2 200).1
      = [(sampleTaskP1, calculate_score 1 100),
         ((⟨"C", 2, 200, sampleData⟩ : Task), (6 - 2) * 200)] ∧
    get_process_task [(sampleTaskP1, calculate_score 1 100)]
      = (some sampleTaskP1, []) ∧
    get_process_task ([] : ProcessQueue) = (none, []) := by
  have h := C2_enqueue_score_dequeue_max
    [(sampleTaskP1, calculate_score 1 100)] "C" sampleData 2 200
    (sampleTaskP1, calculate_score 1 100)
    (by
      intro p hp
      rw [List.mem_singleton] at hp
      subst hp
      simp [sampleTaskP1])
    (List.mem_singleton.mpr rfl)
    (by
      intro p hp hne
      rw [List.mem_singleton] at hp
      exact absurd hp hne)
  exact ⟨h.1, by simpa [List.erase_cons_head] using h.2.1, h.2.2⟩

/-! ## Cancellation -/

theorem delete_scan_loop_no_match (tid : String) (l : List (Task × ℚ))
    (q : ProcessQueue) (h : ∀ p ∈ l, ¬ p.1.task_id = tid) :
    delete_scan_loop tid l q = (false, q) := by
  induction l with
  | nil => rfl
  | cons x xs ih =>
    have hx := h x (List.mem_cons_self x xs)
    simp only [delete_scan_loop, if_neg hx]
    exact ih (fun p hp => h p (List.mem_cons_of_mem _ hp))

theorem delete_scan_loop_skip (tid : String) (pre rest : List (Task × ℚ))
    (q : ProcessQueue) (hpre : ∀ p ∈ pre, ¬ p.1.task_id = tid) :
    delete_scan_loop tid (pre ++ rest) q = delete_scan_loop tid rest q := by
  induction pre with
  | nil => rfl
  | cons x xs ih =>
    have hx := hpre x (List.mem_cons_self x xs)
    simp only [List.cons_append, delete_scan_loop, if_neg hx]
    exact ih (fun p hp => hpre p (List.mem_cons_of_mem _ hp))

/-- C6: cancellation scans the resident members and removes the first whose
embedded `task_id` matches, returning true exactly because ZREM confirmed the
member still existed; an unknown identifier returns false and leaves the queue
unchanged; and the HTTP cancel endpoint answers 200 / "canceled" in either
case. -/
theorem C6_cancel_semantics (q : ProcessQueue) (tid : String)
    (pre : List (Task × ℚ)) (m : Task × ℚ) (post : List (Task × ℚ)) :
    ((∀ p ∈ q, ¬ p.1.task_id = tid) → delete_process_task q tid = (false, q)) ∧
    (q = pre ++ m :: post → (∀ p ∈ pre, ¬ p.1.task_id = tid) →
      m.1.task_id = tid →
      0 < (zrem q m.1).1 ∧
      delete_process_task q tid = (true, List.filter (fun p => ¬ p.1 = m.1) q)) ∧
    (¬ tid = "" →
      cancel_task q tid = ((200, "canceled"), (delete_process_task q tid).2)) := by
  refine ⟨?_, ?_, ?_⟩
  · intro h
    exact delete_scan_loop_no_match tid q q h
  · intro hq hpre hm
    have hmem : m ∈ q := by rw [hq]; exact List.mem_append_right pre (List.mem_cons_self m post)
    have hzrem : 0 < (zrem q m.1).1 := by
      have : m ∈ List.filter (fun p => p.1 = m.1) q :=
        List.mem_filter.mpr ⟨hmem, by simp⟩
      simpa [zrem] using List.length_pos_of_mem this
    refine ⟨hzrem, ?_⟩
    have hloop : delete_process_task q tid = delete_scan_loop tid (m :: post) q := by
      unfold delete_process_task
      nth_rewrite 1 [hq]
      exact delete_scan_loop_skip tid pre (m :: post) q hpre
    rw [hloop]
    simp only [delete_scan_loop, if_pos hm, if_pos hzrem]
    rfl
  · intro htid
    simp [cancel_task, delete_process_task, htid]

/-- Witness for `C6_cancel_semantics`: a queue holding one task; cancelling
its id removes it and answers 200 "canceled"; cancelling an unknown id leaves
the queue unchanged. -/
theorem C6_cancel_semantics_witness :
    delete_process_task [(sampleTaskP1, calculate_score 1 100)] "nope"
      = (false, [(sampleTaskP1, calculate_score 1 100)]) ∧
    delete_process_task [(sampleTaskP1, calculate_score 1 100)] "B"
      = (true, []) ∧
    cancel_task [(sampleTaskP1, calculate_score 1 100)] "B"
      = ((200, "canceled"),
         (delete_process_task [(sampleTaskP1, calculate_score 1 100)] "B").2) := by
  have h1 := (C6_cancel_semantics [(sampleTaskP1, calculate_score 1 100)] "nope"
      [] (sampleTaskP1, calculate_score 1 100) []).1
    (by
      intro p hp
      rw [List.mem_singleton] at hp
      subst hp
      simp [sampleTaskP1])
  have h2 := ((C6_cancel_semantics [(sampleTaskP1, calculate_score 1 100)] "B"
      [] (sampleTaskP1, calculate_score 1 100) []).2.1
    rfl (by intro p hp; cases hp) rfl).2
  have h3 := (C6_cancel_semantics [(sampleTaskP1, calculate_score 1 100)] "B"
      [] (sampleTaskP1, calculate_score 1 100) []).2.2 (by simp)
  refine ⟨h1, ?_, h3⟩
  rw [h2]
  simp [sampleTaskP1]

/-! ## Submission gateway -/

/-- C7: each missing/invalid field of a `/generate` request yields a
synchronous 400 with its field-specific message and leaves the queue
untouched; a valid request inserts the freshly-identified task with its
computed score and answers 201 with status "queued". -/
theorem C7_generate_validation (supported : List String) (req : GenerateRequest)
    (fresh_id : String) (now : ℚ) (q : ProcessQueue) :
    (falsy req.text = true →
      clone_single supported req fresh_id now q
        = ((400, GenBody.err "Missing required field: text"), q)) ∧
    (falsy req.text = false → falsy req.hook_url = true →
      clone_single supported req fresh_id now q
        = ((400, GenBody.err "Missing required field: hook_url"), q)) ∧
    (falsy req.text = false → falsy req.hook_url = false →
      falsy req.spk_audio_prompt = true →
      clone_single supported req fresh_id now q
        = ((400, GenBody.err "Missing required field: spk_audio_prompt"), q)) ∧
    (falsy req.text = false → falsy req.hook_url = false →
      falsy req.spk_audio_prompt = false →
      ¬ (1 ≤ Option.getD req.priority 3 ∧ Option.getD req.priority 3 ≤ 5) →
      clone_single supported req fresh_id now q
        = ((400, GenBody.err "Priority must be between 1 and 5"), q)) ∧
    (falsy req.text = false → falsy req.hook_url = false →
      falsy req.spk_audio_prompt = false →
      (1 ≤ Option.getD req.priority 3 ∧ Option.getD req.priority 3 ≤ 5) →
      ¬ Option.getD req.language "en" ∈ supported →
      clone_single supported req fresh_id now q
        = ((400, GenBody.err
            ("Unsupported language: " ++ Option.getD req.language "en")), q)) ∧
    (falsy req.text = false → falsy req.hook_url = false →
      falsy req.spk_audio_prompt = false →
      (1 ≤ Option.getD req.priority 3 ∧ Option.getD req.priority 3 ≤ 5) →
      Option.getD req.language "en" ∈ supported →
      (∀ p ∈ q, ¬ p.1 = (⟨fresh_id, Option.getD req.priority 3, now,
        ⟨Option.getD req.text "", Option.getD req.language "en",
         Option.getD req.spk_audio_prompt "", Option.getD req.hook_url "",
         Option.getD req.priority 3⟩⟩ : Task)) →
      clone_single supported req fresh_id now q
        = ((201, GenBody.queued fresh_id "queued"
              "Task added to queue successfully"),
           q ++ [((⟨fresh_id, Option.getD req.priority 3, now,
              ⟨Option.getD req.text "", Option.getD req.language "en",
               Option.getD req.spk_audio_prompt "", Option.getD req.hook_url "",
               Option.getD req.priority 3⟩⟩ : Task),
              calculate_score (Option.getD req.priority 3) now)])) := by
  refine ⟨?_, ?_, ?_, ?_, ?_, ?_⟩
  · intro h1
    simp [clone_single, h1]
  · intro h1 h2
    simp [clone_single, h1, h2]
  · intro h1 h2 h3
    simp [clone_single, h1, h2, h3]
  · intro h1 h2 h3 h4
    simp [clone_single, h1, h2, h3, h4]
  · intro h1 h2 h3 h4 h5
    simp [clone_single, h1, h2, h3, h4, h5]
  · intro h1 h2 h3 h4 h5 hfresh
    have hany : (List.any q fun p =>
        p.1 = (⟨fresh_id, Option.getD req.priority 3, now,
          ⟨Option.getD req.text "", Option.getD req.language "en",
           Option.getD req.spk_audio_prompt "", Option.getD req.hook_url "",
           Option.getD req.priority 3⟩⟩ : Task)) = false := by
      simp only [List.any_eq_false, decide_eq_true_eq]
      exact hfresh
    simp [clone_single, h1, h2, h3, h4, h5, add_task, zadd, hany]

/-- Witness for `C7_generate_validation`: a request missing `text` is refused
with 400 and enqueues nothing; the valid §8 round-trip request enqueues one
task with score `(6 - 5) * 100` and is answered 201/"queued". -/
theorem C7_generate_validation_witness :
    clone_single ["en"]
      ⟨none, some "http://y/a.wav", some 5, some "http://x", some "en"⟩
      "id1" 100 []
      = ((400, GenBody.err "Missing required field: text"), []) ∧
    clone_single ["en"]
      ⟨some "hello", some "http://y/a.wav", some 5, some "http://x", some "en"⟩
      "id1" 100 []
      = ((201, GenBody.queued "id1" "queued" "Task added to queue successfully"),
         [((⟨"id1", 5, 100, ⟨"hello", "en", "http://y/a.wav", "http://x", 5⟩⟩ : Task),
           calculate_score 5 100)]) := by
  constructor
  · exact (C7_generate_validation ["en"]
      ⟨none, some "http://y/a.wav", some 5, some "http://x", some "en"⟩
      "id1" 100 []).1 rfl
  · exact (C7_generate_validation ["en"]
      ⟨some "hello", some "http://y/a.wav", some 5, some "http://x", some "en"⟩
      "id1" 100 []).2.2.2.2.2 rfl rfl rfl (by norm_num) (by simp)
      (by intro p hp; cases hp)

/-! ## Callback delivery lemmas -/

theorem send_callback_attempt_cases (o : PostOutcome) :
    send_callback_attempt o = LoopAct.ret ∨
    send_callback_attempt o = LoopAct.brk ∨
    send_callback_attempt o = LoopAct.cont := by
  cases o with
  | response s =>
    by_cases h1 : 400 ≤ s ∧ s < 600
    · by_cases h2 : 400 ≤ s ∧ s < 500 ∧ ¬ s = 408 ∧ ¬ s = 429
      · right; left
        show (match raisedBy (PostOutcome.response s) with
          | none => LoopAct.ret
          | some e => runHandlers send_callback_handlers e) = LoopAct.brk
        rw [raisedBy, if_pos h1]
        show runHandlers send_callback_handlers (PyExc.httpError s)
          = LoopAct.brk
        rw [runHandlers.eq_def]
        simp only [send_callback_handlers]
        rw [show isInstance (PyExc.httpError s) ExcClass.httpErrorC = true
          from rfl]
        simp only [if_true]
        exact if_pos h2
      · right; right
        show (match raisedBy (PostOutcome.response s) with
          | none => LoopAct.ret
          | some e => runHandlers send_callback_handlers e) = LoopAct.cont
        rw [raisedBy, if_pos h1]
        show runHandlers send_callback_handlers (PyExc.httpError s)
          = LoopAct.cont
        rw [runHandlers.eq_def]
        simp only [send_callback_handlers]
        rw [show isInstance (PyExc.httpError s) ExcClass.httpErrorC = true
          from rfl]
        simp only [if_true]
        exact if_neg h2
    · left
      show (match raisedBy (PostOutcome.response s) with
        | none => LoopAct.ret
        | some e => runHandlers send_callback_handlers e) = LoopAct.ret
      rw [raisedBy, if_neg h1]
  | netFail => right; right; rfl
  | otherFail => right; left; rfl

theorem send_callback_attempt_ne_propagate (o : PostOutcome) (e : PyExc) :
    ¬ send_callback_attempt o = LoopAct.propagate e := by
  rcases send_callback_attempt_cases o with h | h | h <;> simp [h]

theorem send_callback_loop_propagated (endpoint : ℕ → PostOutcome)
    (jitter : ℕ → ℚ) :
    ∀ fuel a, (send_callback_loop endpoint jitter fuel a).propagated = none := by
  intro fuel
  induction fuel with
  | zero => intro a; rfl
  | succ n ih =>
    intro a
    cases hact : send_callback_attempt (endpoint a) with
    | ret => simp [send_callback_loop, hact]
    | brk => simp [send_callback_loop, hact]
    | cont => simp [send_callback_loop, hact, ih (a + 1)]
    | propagate e => exact absurd hact (send_callback_attempt_ne_propagate _ _)

theorem send_callback_loop_attempts_le (endpoint : ℕ → PostOutcome)
    (jitter : ℕ → ℚ) :
    ∀ fuel a, (send_callback_loop endpoint jitter fuel a).attempts ≤ fuel := by
  intro fuel
  induction fuel with
  | zero => intro a; exact le_refl 0
  | succ n ih =>
    intro a
    cases hact : send_callback_attempt (endpoint a) with
    | ret => simp [send_callback_loop, hact]
    | brk => simp [send_callback_loop, hact]
    | cont =>
      simp only [send_callback_loop, hact]
      exact Nat.succ_le_succ (ih (a + 1))
    | propagate e => exact absurd hact (send_callback_attempt_ne_propagate _ _)

theorem send_callback_loop_first_brk (endpoint : ℕ → PostOutcome)
    (jitter : ℕ → ℚ) (fuel : ℕ) (hfuel : 0 < fuel)
    (hact : send_callback_attempt (endpoint 0) = LoopAct.brk) :
    send_callback_loop endpoint jitter fuel 0 = ⟨1, false, [], none⟩ := by
  cases fuel with
  | zero => exact absurd hfuel (lt_irrefl 0)
  | succ n => simp [send_callback_loop, hact]

theorem send_callback_loop_cont_step (endpoint : ℕ → PostOutcome)
    (jitter : ℕ → ℚ) (fuel a : ℕ)
    (hact : send_callback_attempt (endpoint a) = LoopAct.cont) :
    send_callback_loop endpoint jitter (fuel + 1) a
      = ⟨(send_callback_loop endpoint jitter fuel (a + 1)).attempts + 1,
         (send_callback_loop endpoint jitter fuel (a + 1)).delivered,
         (if 0 < a then [sleepAt jitter a] else [])
           ++ (send_callback_loop endpoint jitter fuel (a + 1)).sleeps,
         (send_callback_loop endpoint jitter fuel (a + 1)).propagated⟩ := by
  simp [send_callback_loop, hact]

theorem send_callback_loop_ret_pos (endpoint : ℕ → PostOutcome)
    (jitter : ℕ → ℚ) (fuel a : ℕ) (ha : 0 < a)
    (hact : send_callback_attempt (endpoint a) = LoopAct.ret) :
    send_callback_loop endpoint jitter (fuel + 1) a
      = ⟨1, true, [sleepAt jitter a], none⟩ := by
  simp [send_callback_loop, hact, ha]

theorem send_callback_loop_all_cont (endpoint : ℕ → PostOutcome)
    (jitter : ℕ → ℚ)
    (h : ∀ a, send_callback_attempt (endpoint a) = LoopAct.cont) :
    ∀ fuel a, (send_callback_loop endpoint jitter fuel a).attempts = fuel ∧
      (send_callback_loop endpoint jitter fuel a).delivered = false := by
  intro fuel
  induction fuel with
  | zero => intro a; exact ⟨rfl, rfl⟩
  | succ n ih =>
    intro a
    refine ⟨?_, ?_⟩ <;> simp [send_callback_loop, h a, (ih (a + 1)).1, (ih (a + 1)).2]

theorem sleepAt_le_60 (jitter : ℕ → ℚ) (a : ℕ) : sleepAt jitter a ≤ 60 :=
  min_le_right _ _

theorem sleepAt_mono (jitter : ℕ → ℚ)
    (hj : ∀ n, 0 ≤ jitter n ∧ jitter n < 1) (a : ℕ) :
    sleepAt jitter a ≤ sleepAt jitter (a + 1) := by
  unfold sleepAt
  refine min_le_min ?_ le_rfl
  unfold delayAt INITIAL_DELAY
  have h1 : jitter a < 1 := (hj a).2
  have h2 : 0 ≤ jitter (a + 1) := (hj (a + 1)).1
  have hx : (1 : ℚ) ≤ 2 ^ a := one_le_pow₀ (by norm_num)
  have hs : (2 : ℚ) ^ (a + 1) = 2 ^ a + 2 ^ a := by ring
  nlinarith

theorem send_callback_loop_sleeps_bound (endpoint : ℕ → PostOutcome)
    (jitter : ℕ → ℚ) :
    ∀ fuel a, ∀ s ∈ (send_callback_loop endpoint jitter fuel a).sleeps,
      s ≤ 60 := by
  intro fuel
  induction fuel with
  | zero => intro a s hs; cases hs
  | succ n ih =>
    intro a s hs
    cases hact : send_callback_attempt (endpoint a) with
    | ret =>
      simp only [send_callback_loop, hact] at hs
      split at hs
      · rw [List.mem_singleton] at hs; exact hs ▸ sleepAt_le_60 jitter a
      · cases hs
    | brk =>
      simp only [send_callback_loop, hact] at hs
      split at hs
      · rw [List.mem_singleton] at hs; exact hs ▸ sleepAt_le_60 jitter a
      · cases hs
    | cont =>
      simp only [send_callback_loop, hact, List.mem_append] at hs
      rcases hs with hs | hs
      · split at hs
        · rw [List.mem_singleton] at hs; exact hs ▸ sleepAt_le_60 jitter a
        · cases hs
      · exact ih (a + 1) s hs
    | propagate e => exact absurd hact (send_callback_attempt_ne_propagate _ _)

theorem send_callback_loop_sleeps_chain (endpoint : ℕ → PostOutcome)
    (jitter : ℕ → ℚ) (hj : ∀ n, 0 ≤ jitter n ∧ jitter n < 1) :
    ∀ fuel a, 1 ≤ a →
      List.Chain' (· ≤ ·) (send_callback_loop endpoint jitter fuel a).sleeps ∧
      (∀ s ∈ (send_callback_loop endpoint jitter fuel a).sleeps,
        sleepAt jitter a ≤ s) := by
  intro fuel
  induction fuel with
  | zero => intro a _; exact ⟨List.chain'_nil, fun s hs => absurd hs (by simp [send_callback_loop])⟩
  | succ n ih =>
    intro a ha
    have hpos : 0 < a := ha
    cases hact : send_callback_attempt (endpoint a) with
    | ret =>
      refine ⟨?_, ?_⟩ <;> simp [send_callback_loop, hact, hpos]
    | brk =>
      refine ⟨?_, ?_⟩ <;> simp [send_callback_loop, hact, hpos]
    | cont =>
      have htail := ih (a + 1) (by omega)
      have hmono := sleepAt_mono jitter hj a
      constructor
      · simp only [send_callback_loop, hact, if_pos hpos, List.singleton_append]
        rw [List.chain'_cons']
        refine ⟨?_, htail.1⟩
        intro b hb
        have hbmem : b ∈ (send_callback_loop endpoint jitter n (a + 1)).sleeps :=
          List.mem_of_mem_head? hb
        exact le_trans hmono (htail.2 b hbmem)
      · intro s hs
        simp only [send_callback_loop, hact, if_pos hpos,
          List.singleton_append, List.mem_cons] at hs
        rcases hs with rfl | hs
        · exact le_refl _
        · exact le_trans hmono (htail.2 s hs)
    | propagate e => exact absurd hact (send_callback_attempt_ne_propagate _ _)

theorem send_callback_sleeps_chain (url : String) (endpoint : ℕ → PostOutcome)
    (jitter : ℕ → ℚ) (hj : ∀ n, 0 ≤ jitter n ∧ jitter n < 1) :
    List.Chain' (· ≤ ·) (send_callback url endpoint jitter).sleeps := by
  unfold send_callback
  split
  · exact List.chain'_nil
  · show List.Chain' (· ≤ ·)
      (send_callback_loop endpoint jitter (9 + 1) 0).sleeps
    cases hact : send_callback_attempt (endpoint 0) with
    | ret => simp [send_callback_loop, hact]
    | brk => simp [send_callback_loop, hact]
    | cont =>
      simp only [send_callback_loop, hact, if_neg (lt_irrefl 0),
        List.nil_append]
      exact (send_callback_loop_sleeps_chain endpoint jitter hj 9 1 le_rfl).1
    | propagate e => exact absurd hact (send_callback_attempt_ne_propagate _ _)

theorem send_callback_failure_attempts (url : String) (outcome : PostOutcome)
    (hurl : ¬ url = "") : (send_callback_failure url outcome).attempts = 1 := by
  unfold send_callback_failure
  rw [if_neg hurl]
  cases houtcome : raisedBy outcome with
  | none => rfl
  | some e => cases e <;> simp [runHandlers, isInstance]

theorem send_callback_attempt_permanent (s : ℕ) (h4 : 400 ≤ s) (h5 : s < 500)
    (h8 : ¬ s = 408) (h9 : ¬ s = 429) :
    send_callback_attempt (PostOutcome.response s) = LoopAct.brk := by
  show (match raisedBy (PostOutcome.response s) with
    | none => LoopAct.ret
    | some e => runHandlers send_callback_handlers e) = LoopAct.brk
  rw [raisedBy, if_pos ⟨h4, by omega⟩]
  show runHandlers send_callback_handlers (PyExc.httpError s) = LoopAct.brk
  rw [runHandlers.eq_def]
  simp only [send_callback_handlers]
  rw [show isInstance (PyExc.httpError s) ExcClass.httpErrorC = true from rfl]
  simp only [if_true]
  exact if_pos ⟨h4, h5, h8, h9⟩

theorem send_callback_attempt_5xx (s : ℕ) (h5 : 500 ≤ s) (h6 : s < 600) :
    send_callback_attempt (PostOutcome.response s) = LoopAct.cont := by
  show (match raisedBy (PostOutcome.response s) with
    | none => LoopAct.ret
    | some e => runHandlers send_callback_handlers e) = LoopAct.cont
  rw [raisedBy, if_pos ⟨by omega, h6⟩]
  show runHandlers send_callback_handlers (PyExc.httpError s) = LoopAct.cont
  rw [runHandlers.eq_def]
  simp only [send_callback_handlers]
  rw [show isInstance (PyExc.httpError s) ExcClass.httpErrorC = true from rfl]
  simp only [if_true]
  exact if_neg (by omega)

theorem send_callback_attempt_success (s : ℕ) (h : ¬ (400 ≤ s ∧ s < 600)) :
    send_callback_attempt (PostOutcome.response s) = LoopAct.ret := by
  show (match raisedBy (PostOutcome.response s) with
    | none => LoopAct.ret
    | some e => runHandlers send_callback_handlers e) = LoopAct.ret
  rw [raisedBy, if_neg h]

theorem send_callback_loop_stops_at (endpoint : ℕ → PostOutcome)
    (jitter : ℕ → ℚ) :
    ∀ fuel n a, n < fuel →
      (∀ i, i < n →
        send_callback_attempt (endpoint (a + i)) = LoopAct.cont) →
      (send_callback_attempt (endpoint (a + n)) = LoopAct.brk ∨
       send_callback_attempt (endpoint (a + n)) = LoopAct.ret) →
      (send_callback_loop endpoint jitter fuel a).attempts = n + 1 ∧
      ((send_callback_loop endpoint jitter fuel a).delivered = true ↔
        send_callback_attempt (endpoint (a + n)) = LoopAct.ret) := by
  intro fuel
  induction fuel with
  | zero => intro n a hn; exact absurd hn (Nat.not_lt_zero n)
  | succ m ih =>
    intro n a hn hcont hstop
    cases n with
    | zero =>
      rw [Nat.add_zero] at hstop ⊢
      rcases hstop with hstop | hstop
      · refine ⟨?_, ?_⟩ <;> simp [send_callback_loop, hstop]
      · refine ⟨?_, ?_⟩ <;> simp [send_callback_loop, hstop]
    | succ k =>
      have hc0 : send_callback_attempt (endpoint a) = LoopAct.cont := by
        have h := hcont 0 (Nat.succ_pos k)
        rwa [Nat.add_zero] at h
      have hcont2 : ∀ i, i < k →
          send_callback_attempt (endpoint (a + 1 + i)) = LoopAct.cont := by
        intro i hi
        have h := hcont (i + 1) (by omega)
        rwa [show a + (i + 1) = a + 1 + i by omega] at h
      have hstop2 :
          send_callback_attempt (endpoint (a + 1 + k)) = LoopAct.brk ∨
          send_callback_attempt (endpoint (a + 1 + k)) = LoopAct.ret := by
        rw [show a + 1 + k = a + (k + 1) by omega]
        exact hstop
      have hih := ih k (a + 1) (by omega) hcont2 hstop2
      constructor
      · simp only [send_callback_loop, hc0]
        rw [hih.1]
      · simp only [send_callback_loop, hc0]
        rw [show a + (k + 1) = a + 1 + k by omega]
        exact hih.2

theorem build_callback_data_base (tid status : String)
    (result : Option UploadResult) (error error_code : Option String)
    (now : ℤ) :
    (build_callback_data tid status result error error_code now).task_uuid = tid ∧
    (build_callback_data tid status result error error_code now).status = status ∧
    (build_callback_data tid status result error error_code now).timestamp = now := by
  unfold build_callback_data
  refine ⟨?_, ?_, ?_⟩ <;> (repeat' split) <;> rfl

/-- C3: the retry classification of `send_callback`.  Classification of every
single attempt: an HTTP 4xx other than 408/429 is permanent (break — stop
retrying immediately); 408, 429, any 5xx, and any network-level failure or
timeout are transient (continue — retry); any other unexpected error breaks;
a non-error response returns.  Lifted to the loop: whenever the first `n`
attempts are transient and attempt `n` breaks or returns, `send_callback`
makes exactly `n + 1` attempts — so a permanent 4xx or an unexpected error
stops retrying immediately wherever it occurs, and delivery succeeds exactly
when the stopping attempt returned.  An endpoint always answering 404 gets
exactly one attempt; 500 on the first three attempts then 200 delivers on the
4th attempt; an always-transient endpoint is retried up to `MAX_RETRIES = 10`
attempts; the attempt count never exceeds `MAX_RETRIES`; the sleep before
attempt `a` is `min(INITIAL_DELAY * 2 ^ a + jitter, 60)`, and the performed
sleeps are non-decreasing and capped at 60. -/
theorem C3_callback_retry_classification (url : String)
    (endpoint : ℕ → PostOutcome) (jitter : ℕ → ℚ) (hurl : ¬ url = "")
    (hj : ∀ n, 0 ≤ jitter n ∧ jitter n < 1) :
    (∀ s, 400 ≤ s → s < 500 → ¬ s = 408 → ¬ s = 429 →
      send_callback_attempt (PostOutcome.response s) = LoopAct.brk) ∧
    (send_callback_attempt (PostOutcome.response 408) = LoopAct.cont ∧
     send_callback_attempt (PostOutcome.response 429) = LoopAct.cont) ∧
    (∀ s, 500 ≤ s → s < 600 →
      send_callback_attempt (PostOutcome.response s) = LoopAct.cont) ∧
    send_callback_attempt PostOutcome.netFail = LoopAct.cont ∧
    send_callback_attempt PostOutcome.otherFail = LoopAct.brk ∧
    (∀ s, ¬ (400 ≤ s ∧ s < 600) →
      send_callback_attempt (PostOutcome.response s) = LoopAct.ret) ∧
    (∀ n, n < MAX_RETRIES →
      (∀ i, i < n → send_callback_attempt (endpoint i) = LoopAct.cont) →
      (send_callback_attempt (endpoint n) = LoopAct.brk ∨
       send_callback_attempt (endpoint n) = LoopAct.ret) →
      (send_callback url endpoint jitter).attempts = n + 1 ∧
      ((send_callback url endpoint jitter).delivered = true ↔
        send_callback_attempt (endpoint n) = LoopAct.ret)) ∧
    ((∀ a, endpoint a = PostOutcome.response 404) →
      send_callback url endpoint jitter = ⟨1, false, [], none⟩) ∧
    (endpoint 0 = PostOutcome.response 500 →
      endpoint 1 = PostOutcome.response 500 →
      endpoint 2 = PostOutcome.response 500 →
      endpoint 3 = PostOutcome.response 200 →
      send_callback url endpoint jitter
        = ⟨4, true,
           [sleepAt jitter 1, sleepAt jitter 2, sleepAt jitter 3], none⟩) ∧
    ((∀ a, endpoint a = PostOutcome.netFail) →
      (send_callback url endpoint jitter).attempts = MAX_RETRIES ∧
      (send_callback url endpoint jitter).delivered = false) ∧
    (send_callback url endpoint jitter).attempts ≤ MAX_RETRIES ∧
    (∀ a, sleepAt jitter a = min (INITIAL_DELAY * 2 ^ a + jitter a) 60) ∧
    List.Chain' (· ≤ ·) (send_callback url endpoint jitter).sleeps ∧
    (∀ s ∈ (send_callback url endpoint jitter).sleeps, s ≤ 60) := by
  refine ⟨send_callback_attempt_permanent, ⟨by decide, by decide⟩,
    send_callback_attempt_5xx, by decide, by decide,
    send_callback_attempt_success, ?_, ?_, ?_, ?_, ?_, fun a => rfl, ?_, ?_⟩
  · intro n hn hcont hstop
    have hc2 : ∀ i, i < n →
        send_callback_attempt (endpoint (0 + i)) = LoopAct.cont := by
      intro i hi; rw [Nat.zero_add]; exact hcont i hi
    have hs2 : send_callback_attempt (endpoint (0 + n)) = LoopAct.brk ∨
        send_callback_attempt (endpoint (0 + n)) = LoopAct.ret := by
      rw [Nat.zero_add]; exact hstop
    have h := send_callback_loop_stops_at endpoint jitter MAX_RETRIES n 0
      hn hc2 hs2
    rw [Nat.zero_add] at h
    unfold send_callback
    rw [if_neg hurl]
    exact h
  · intro h404
    unfold send_callback
    rw [if_neg hurl]
    refine send_callback_loop_first_brk endpoint jitter MAX_RETRIES
      (by norm_num [MAX_RETRIES]) ?_
    rw [h404 0]; decide
  · intro h0 h1 h2 h3
    have a0 : send_callback_attempt (endpoint 0) = LoopAct.cont := by
      rw [h0]; decide
    have a1 : send_callback_attempt (endpoint 1) = LoopAct.cont := by
      rw [h1]; decide
    have a2 : send_callback_attempt (endpoint 2) = LoopAct.cont := by
      rw [h2]; decide
    have a3 : send_callback_attempt (endpoint 3) = LoopAct.ret := by
      rw [h3]; decide
    have s3 : send_callback_loop endpoint jitter 7 3
        = ⟨1, true, [sleepAt jitter 3], none⟩ :=
      send_callback_loop_ret_pos endpoint jitter 6 3 (by norm_num) a3
    have s2 : send_callback_loop endpoint jitter 8 2
        = ⟨2, true, [sleepAt jitter 2, sleepAt jitter 3], none⟩ := by
      have hstep := send_callback_loop_cont_step endpoint jitter 7 2 a2
      rw [show (8 : ℕ) = 7 + 1 from rfl, hstep, s3]
      norm_num
    have s1 : send_callback_loop endpoint jitter 9 1
        = ⟨3, true,
           [sleepAt jitter 1, sleepAt jitter 2, sleepAt jitter 3], none⟩ := by
      have hstep := send_callback_loop_cont_step endpoint jitter 8 1 a1
      rw [show (9 : ℕ) = 8 + 1 from rfl, hstep, s2]
      norm_num
    have s0 : send_callback_loop endpoint jitter 10 0
        = ⟨4, true,
           [sleepAt jitter 1, sleepAt jitter 2, sleepAt jitter 3], none⟩ := by
      have hstep := send_callback_loop_cont_step endpoint jitter 9 0 a0
      rw [show (10 : ℕ) = 9 + 1 from rfl, hstep, s1]
      norm_num
    unfold send_callback
    rw [if_neg hurl]
    exact s0
  · intro hnet
    have hcont : ∀ a, send_callback_attempt (endpoint a) = LoopAct.cont := by
      intro a; rw [hnet a]; decide
    have h := send_callback_loop_all_cont endpoint jitter hcont MAX_RETRIES 0
    unfold send_callback
    rw [if_neg hurl]
    exact h
  · unfold send_callback
    rw [if_neg hurl]
    exact send_callback_loop_attempts_le endpoint jitter MAX_RETRIES 0
  · exact send_callback_sleeps_chain url endpoint jitter hj
  · unfold send_callback
    rw [if_neg hurl]
    exact send_callback_loop_sleeps_bound endpoint jitter MAX_RETRIES 0

/-- Witness for `C3_callback_retry_classification` at a concrete URL and zero
jitter: a permanent 403 on the first attempt stops after exactly one attempt
(via the general stop conjunct at n = 0), and an always-404 endpoint gets
exactly one attempt with no sleeps. -/
theorem C3_callback_retry_classification_witness :
    (send_callback "u" (fun _ => PostOutcome.response 403)
      (fun _ => 0)).attempts = 1 ∧
    send_callback "u" (fun _ => PostOutcome.response 404) (fun _ => 0)
      = ⟨1, false, [], none⟩ := by
  constructor
  · exact ((C3_callback_retry_classification "u"
      (fun _ => PostOutcome.response 403) (fun _ => 0) (by simp)
      (fun n => by norm_num)).2.2.2.2.2.2.1 0 (by norm_num [MAX_RETRIES])
      (fun i hi => absurd hi (Nat.not_lt_zero i))
      (Or.inl (by decide))).1
  · exact (C3_callback_retry_classification "u"
      (fun _ => PostOutcome.response 404) (fun _ => 0) (by simp)
      (fun n => by norm_num)).2.2.2.2.2.2.2.1 (fun a => rfl)

/-- C4: the claim as stated is false on the code.  Against an endpoint whose
POST always fails transiently (a network error), the Processing Worker's
direct failure callback `send_callback_failure` makes exactly one attempt —
it has no retry loop — while the Delivery Worker's `send_callback` retries
the same transient failure for `MAX_RETRIES = 10` attempts. -/
theorem C4_counterexample :
    (send_callback_failure "u" PostOutcome.netFail).attempts = 1 ∧
    (send_callback "u" (fun _ => PostOutcome.netFail) (fun _ => 0)).attempts
      = MAX_RETRIES ∧
    ¬ (1 : ℕ) = MAX_RETRIES := by
  refine ⟨send_callback_failure_attempts "u" PostOutcome.netFail (by simp), ?_,
    by norm_num [MAX_RETRIES]⟩
  have hcont : ∀ a : ℕ, send_callback_attempt
      ((fun _ : ℕ => PostOutcome.netFail) a) = LoopAct.cont := fun _ => rfl
  have h := send_callback_loop_all_cont (fun _ => PostOutcome.netFail)
    (fun _ => 0) hcont MAX_RETRIES 0
  show (send_callback "u" (fun _ => PostOutcome.netFail)
    (fun _ => 0)).attempts = MAX_RETRIES
  unfold send_callback
  rw [if_neg (by simp)]
  exact h.1

/-- C4 (amended): the callback delivery protocol — a POST of a JSON body
carrying `task_uuid`, `status` and `timestamp` with a 10-second per-attempt
timeout — applies to both the Delivery Worker's success and failure
callbacks, which retry up to the fixed maximum of `MAX_RETRIES = 10` attempts
with exponential backoff; the Processing Worker's direct failure callback
POSTs the same body shape with the same timeout but makes exactly one
attempt, with no retry. -/
theorem C4_protocol_scope (url : String) (endpoint : ℕ → PostOutcome)
    (jitter : ℕ → ℚ) (outcome : PostOutcome) (tid status error : String)
    (code : Option String) (result : Option UploadResult) (now : ℤ)
    (hurl : ¬ url = "") :
    (build_callback_data tid status result (some error) code now).task_uuid
      = tid ∧
    (build_callback_data tid status result (some error) code now).status
      = status ∧
    (build_callback_data tid status result (some error) code now).timestamp
      = now ∧
    (build_failure_callback_data tid error code now).task_uuid = tid ∧
    (build_failure_callback_data tid error code now).status = "failed" ∧
    (build_failure_callback_data tid error code now).timestamp = now ∧
    CALLBACK_TIMEOUT = 10 ∧
    MAX_RETRIES = 10 ∧
    (∀ a, delayAt jitter a = INITIAL_DELAY * 2 ^ a + jitter a) ∧
    (send_callback url endpoint jitter).attempts ≤ MAX_RETRIES ∧
    ((∀ a, endpoint a = PostOutcome.netFail) →
      (send_callback url endpoint jitter).attempts = MAX_RETRIES) ∧
    (send_callback_failure url outcome).attempts = 1 := by
  obtain ⟨hb1, hb2, hb3⟩ :=
    build_callback_data_base tid status result (some error) code now
  refine ⟨hb1, hb2, hb3, rfl, rfl, rfl, rfl, rfl, fun a => rfl, ?_, ?_, ?_⟩
  · unfold send_callback
    rw [if_neg hurl]
    exact send_callback_loop_attempts_le endpoint jitter MAX_RETRIES 0
  · intro hnet
    have hcont : ∀ a, send_callback_attempt (endpoint a) = LoopAct.cont := by
      intro a; rw [hnet a]; decide
    have h := send_callback_loop_all_cont endpoint jitter hcont MAX_RETRIES 0
    unfold send_callback
    rw [if_neg hurl]
    exact h.1
  · exact send_callback_failure_attempts url outcome hurl

/-- Witness for `C4_protocol_scope` at concrete inputs. -/
theorem C4_protocol_scope_witness :
    (build_failure_callback_data "t" "boom" none 0).status = "failed" ∧
    (send_callback_failure "u" PostOutcome.otherFail).attempts = 1 :=
  ⟨(C4_protocol_scope "u" (fun _ => PostOutcome.netFail) (fun _ => 0)
      PostOutcome.otherFail "t" "success" "boom" none none 0
      (by simp)).2.2.2.2.1,
   (C4_protocol_scope "u" (fun _ => PostOutcome.netFail) (fun _ => 0)
      PostOutcome.otherFail "t" "success" "boom" none none 0
      (by simp)).2.2.2.2.2.2.2.2.2.2.2⟩

/-- C10: the callback senders are total over every modelled endpoint
behavior: every HTTP response, network failure, timeout or unexpected
exception is caught by a handler — no exception ever propagates out of
`send_callback` or `send_callback_failure` — and an empty callback URL makes
both return immediately with zero POST attempts. -/
theorem C10_callback_totality (url : String) (endpoint : ℕ → PostOutcome)
    (jitter : ℕ → ℚ) (outcome : PostOutcome) :
    (send_callback url endpoint jitter).propagated = none ∧
    (send_callback_failure url outcome).propagated = none ∧
    send_callback "" endpoint jitter = ⟨0, false, [], none⟩ ∧
    send_callback_failure "" outcome = ⟨0, false, [], none⟩ := by
  refine ⟨?_, ?_, rfl, rfl⟩
  · unfold send_callback
    split
    · rfl
    · exact send_callback_loop_propagated endpoint jitter MAX_RETRIES 0
  · unfold send_callback_failure
    split
    · rfl
    · cases houtcome : raisedBy outcome with
      | none => rfl
      | some e => cases e <;> simp [runHandlers, isInstance]

/-! ## Delivery worker lemmas -/

theorem cleanup_loop_sub :
    ∀ (paths fs : List String), ∀ q ∈ (cleanup_loop paths fs).2, q ∈ fs := by
  intro paths
  induction paths with
  | nil => intro fs q hq; exact hq
  | cons p rest ih =>
    intro fs q hq
    by_cases hp : p ∈ fs
    · simp only [cleanup_loop, if_pos hp] at hq
      exact List.mem_of_mem_filter (ih (List.filter (fun r => ¬ r = p) fs) q hq)
    · simp only [cleanup_loop, if_neg hp] at hq
      exact ih fs q hq

theorem cleanup_loop_removes :
    ∀ (paths fs : List String) (p : String), p ∈ paths →
      (p ∈ fs → Ev.remove p ∈ (cleanup_loop paths fs).1) ∧
      ¬ p ∈ (cleanup_loop paths fs).2 := by
  intro paths
  induction paths with
  | nil => intro fs p hp; cases hp
  | cons q rest ih =>
    intro fs p hp
    by_cases hq : q ∈ fs
    · simp only [cleanup_loop, if_pos hq]
      by_cases hpq : p = q
      · subst hpq
        refine ⟨fun _ => List.mem_cons_self _ _, ?_⟩
        intro hmem
        have hsub := cleanup_loop_sub rest
          (List.filter (fun r => ¬ r = p) fs) p hmem
        simp at hsub
      · have hprest : p ∈ rest := by
          rcases List.mem_cons.mp hp with h | h
          · exact absurd h hpq
          · exact h
        have ihh := ih (List.filter (fun r => ¬ r = q) fs) p hprest
        refine ⟨?_, ihh.2⟩
        intro hpfs
        exact List.mem_cons_of_mem _
          (ihh.1 (List.mem_filter.mpr ⟨hpfs, by simp [hpq]⟩))
    · simp only [cleanup_loop, if_neg hq]
      by_cases hpq : p = q
      · subst hpq
        refine ⟨fun hpfs => absurd hpfs hq, ?_⟩
        intro hmem
        exact hq (cleanup_loop_sub rest fs p hmem)
      · have hprest : p ∈ rest := by
          rcases List.mem_cons.mp hp with h | h
          · exact absurd h hpq
          · exact h
        exact ih fs p hprest

theorem cleanup_loop_events :
    ∀ (paths fs : List String), ∀ e ∈ (cleanup_loop paths fs).1,
      ∃ p, e = Ev.remove p := by
  intro paths
  induction paths with
  | nil => intro fs e he; cases he
  | cons q rest ih =>
    intro fs e he
    by_cases hq : q ∈ fs
    · simp only [cleanup_loop, if_pos hq] at he
      rcases List.mem_cons.mp he with h | h
      · exact ⟨q, h⟩
      · exact ih _ e h
    · simp only [cleanup_loop, if_neg hq] at he
      exact ih fs e he

theorem cleanup_local_files_true (paths fs : List String) :
    cleanup_local_files paths true fs = cleanup_loop paths fs := by
  simp [cleanup_local_files]

theorem process_upload_task_ok (t : UploadTask)
    (uploader : String → Except String String) (fs : List String) (now : ℤ)
    (p0 : String) (rest : List String) (url : String)
    (hpaths : t.output_paths = p0 :: rest)
    (hok : uploader p0 = Except.ok url) :
    process_upload_task t uploader fs now
      = (Ev.upload p0 ::
          (cleanup_local_files (p0 :: rest)
            (Option.getD t.cleanup_after_upload true) fs).1
          ++ (if falsy t.hook_url then []
              else [Ev.callback (Option.getD t.hook_url "")
                (build_callback_data t.task_id "success"
                  (some (UploadResult.single url)) none none now)]),
         (cleanup_local_files (p0 :: rest)
           (Option.getD t.cleanup_after_upload true) fs).2) := by
  unfold process_upload_task
  rw [hpaths]
  simp only [hok]

theorem process_upload_task_err (t : UploadTask)
    (uploader : String → Except String String) (fs : List String) (now : ℤ)
    (p0 : String) (rest : List String) (msg : String)
    (hpaths : t.output_paths = p0 :: rest)
    (hok : uploader p0 = Except.error msg) :
    process_upload_task t uploader fs now
      = ([Ev.upload p0] ++
          (cleanup_local_files (p0 :: rest)
            (Option.getD t.cleanup_after_upload true) fs).1
          ++ (if falsy t.hook_url then []
              else [Ev.callback (Option.getD t.hook_url "")
                (build_callback_data t.task_id "failed" none
                  (some ("R2 upload/Callback failed: " ++ msg)) none now)]),
         (cleanup_local_files (p0 :: rest)
           (Option.getD t.cleanup_after_upload true) fs).2) := by
  unfold process_upload_task
  rw [hpaths]
  simp only [hok]

theorem process_upload_task_nil (t : UploadTask)
    (uploader : String → Except String String) (fs : List String) (now : ℤ)
    (hpaths : t.output_paths = []) :
    process_upload_task t uploader fs now
      = ([] ++
          (cleanup_local_files []
            (Option.getD t.cleanup_after_upload true) fs).1
          ++ (if falsy t.hook_url then []
              else [Ev.callback (Option.getD t.hook_url "")
                (build_callback_data t.task_id "failed" none
                  (some ("R2 upload/Callback failed: "
                    ++ "list index out of range")) none now)]),
         (cleanup_local_files []
           (Option.getD t.cleanup_after_upload true) fs).2) := by
  unfold process_upload_task
  rw [hpaths]

/-- C5: the claim as stated is false on the code.  An upload item listing two
artifacts leads to exactly one `upload_file` invocation — on
`output_paths[0]` only — and the second artifact never reaches the storage
collaborator. -/
theorem C5_counterexample :
    Ev.upload "a" ∈ (process_upload_task sampleUploadTask
      (fun p => Except.ok ("u/" ++ p)) ["a", "b"] 0).1 ∧
    ¬ Ev.upload "b" ∈ (process_upload_task sampleUploadTask
      (fun p => Except.ok ("u/" ++ p)) ["a", "b"] 0).1 := by
  decide

/-- C5 (amended): for every upload item the Delivery Worker invokes the
storage collaborator on exactly the first element of `output_paths`; on
success the callback carries the single returned URL in `s3_url`
(`send_callback` supports a structured `urls` mapping for dict results, but
`process_upload_task` always passes a single URL string). -/
theorem C5_upload_first_only (t : UploadTask)
    (uploader : String → Except String String) (fs : List String) (now : ℤ)
    (p0 : String) (rest : List String) (url : String)
    (hpaths : t.output_paths = p0 :: rest)
    (hok : uploader p0 = Except.ok url)
    (hhook : falsy t.hook_url = false) :
    List.filter is_upload_ev (process_upload_task t uploader fs now).1
      = [Ev.upload p0] ∧
    Ev.callback (Option.getD t.hook_url "")
        (build_callback_data t.task_id "success"
          (some (UploadResult.single url)) none none now)
      ∈ (process_upload_task t uploader fs now).1 ∧
    (build_callback_data t.task_id "success" (some (UploadResult.single url))
        none none now).s3_url = some url := by
  have htr : (process_upload_task t uploader fs now).1
      = Ev.upload p0 ::
          (cleanup_local_files (p0 :: rest)
            (Option.getD t.cleanup_after_upload true) fs).1
          ++ (if falsy t.hook_url then []
              else [Ev.callback (Option.getD t.hook_url "")
                (build_callback_data t.task_id "success"
                  (some (UploadResult.single url)) none none now)]) := by
    rw [process_upload_task_ok t uploader fs now p0 rest url hpaths hok]
  rw [htr]
  refine ⟨?_, ?_, ?_⟩
  · rw [List.filter_append, List.filter_cons]
    have hclean2 : List.filter is_upload_ev
        (cleanup_local_files (p0 :: rest)
          (Option.getD t.cleanup_after_upload true) fs).1 = [] := by
      rw [List.filter_eq_nil_iff]
      intro e he
      by_cases hb : Option.getD t.cleanup_after_upload true = true
      · rw [hb, cleanup_local_files_true] at he
        obtain ⟨p, rfl⟩ := cleanup_loop_events (p0 :: rest) fs e he
        simp [is_upload_ev]
      · rw [Bool.not_eq_true] at hb
        rw [hb] at he
        simp [cleanup_local_files] at he
    have hcb2 : List.filter is_upload_ev
        (if falsy t.hook_url = true then []
         else [Ev.callback (Option.getD t.hook_url "")
           (build_callback_data t.task_id "success"
             (some (UploadResult.single url)) none none now)]) = [] := by
      rw [if_neg (by simp [hhook])]
      simp [is_upload_ev]
    rw [hclean2, hcb2]
    simp [is_upload_ev]
  · rw [if_neg (by simp [hhook])]
    simp
  · simp [build_callback_data]

/-- Witness for `C5_upload_first_only` at a concrete single-artifact item. -/
theorem C5_upload_first_only_witness :
    List.filter is_upload_ev (process_upload_task sampleUploadTask
      (fun p => Except.ok ("u/" ++ p)) ["a", "b"] 0).1 = [Ev.upload "a"] :=
  (C5_upload_first_only sampleUploadTask (fun p => Except.ok ("u/" ++ p))
    ["a", "b"] 0 "a" ["b"] "u/a" rfl rfl rfl).1

/-- C9: whenever the item's cleanup policy requests cleanup, the trace of
`process_upload_task` splits into a callback-free prefix containing a remove
of every artifact that existed on the local filesystem, followed only by
callback events — cleanup happens before the outcome callback, whether the
upload succeeded or failed — and none of the item's artifacts remain on the
filesystem afterwards. -/
theorem C9_cleanup_before_callback (t : UploadTask)
    (uploader : String → Except String String) (fs : List String) (now : ℤ)
    (hclean : Option.getD t.cleanup_after_upload true = true) :
    ∃ pre cbs,
      (process_upload_task t uploader fs now).1 = pre ++ cbs ∧
      (∀ p ∈ t.output_paths, p ∈ fs → Ev.remove p ∈ pre) ∧
      (∀ e ∈ pre, ∀ u pl, ¬ e = Ev.callback u pl) ∧
      (∀ e ∈ cbs, ∃ u pl, e = Ev.callback u pl) ∧
      (∀ p ∈ t.output_paths, ¬ p ∈ (process_upload_task t uploader fs now).2) := by
  cases hpaths : t.output_paths with
  | nil =>
    refine ⟨(cleanup_local_files [] true fs).1,
      (if falsy t.hook_url then []
       else [Ev.callback (Option.getD t.hook_url "")
         (build_callback_data t.task_id "failed" none
           (some ("R2 upload/Callback failed: "
             ++ "list index out of range")) none now)]), ?_, ?_, ?_, ?_, ?_⟩
    · rw [process_upload_task_nil t uploader fs now hpaths, hclean]
      simp
    · intro p hp; cases hp
    · intro e he
      rw [cleanup_local_files_true] at he
      obtain ⟨p, rfl⟩ := cleanup_loop_events [] fs e he
      intro u pl h; cases h
    · intro e he
      split at he
      · cases he
      · rw [List.mem_singleton] at he
        exact ⟨_, _, he⟩
    · intro p hp; cases hp
  | cons p0 rest =>
    cases hup : uploader p0 with
    | ok url =>
      refine ⟨Ev.upload p0 :: (cleanup_local_files (p0 :: rest) true fs).1,
        (if falsy t.hook_url then []
         else [Ev.callback (Option.getD t.hook_url "")
           (build_callback_data t.task_id "success"
             (some (UploadResult.single url)) none none now)]),
        ?_, ?_, ?_, ?_, ?_⟩
      · rw [process_upload_task_ok t uploader fs now p0 rest url hpaths hup,
          hclean]
      · intro p hp hpfs
        rw [cleanup_local_files_true]
        exact List.mem_cons_of_mem _
          ((cleanup_loop_removes (p0 :: rest) fs p hp).1 hpfs)
      · intro e he
        rcases List.mem_cons.mp he with rfl | he
        · intro u pl h; cases h
        · rw [cleanup_local_files_true] at he
          obtain ⟨p, rfl⟩ := cleanup_loop_events (p0 :: rest) fs e he
          intro u pl h; cases h
      · intro e he
        split at he
        · cases he
        · rw [List.mem_singleton] at he
          exact ⟨_, _, he⟩
      · intro p hp
        rw [process_upload_task_ok t uploader fs now p0 rest url hpaths hup,
          hclean, cleanup_local_files_true]
        exact (cleanup_loop_removes (p0 :: rest) fs p hp).2
    | error msg =>
      refine ⟨[Ev.upload p0] ++ (cleanup_local_files (p0 :: rest) true fs).1,
        (if falsy t.hook_url then []
         else [Ev.callback (Option.getD t.hook_url "")
           (build_callback_data t.task_id "failed" none
             (some ("R2 upload/Callback failed: " ++ msg)) none now)]),
        ?_, ?_, ?_, ?_, ?_⟩
      · rw [process_upload_task_err t uploader fs now p0 rest msg hpaths hup,
          hclean]
      · intro p hp hpfs
        rw [List.singleton_append, cleanup_local_files_true]
        exact List.mem_cons_of_mem _
          ((cleanup_loop_removes (p0 :: rest) fs p hp).1 hpfs)
      · intro e he
        rw [List.singleton_append] at he
        rcases List.mem_cons.mp he with rfl | he
        · intro u pl h; cases h
        · rw [cleanup_local_files_true] at he
          obtain ⟨p, rfl⟩ := cleanup_loop_events (p0 :: rest) fs e he
          intro u pl h; cases h
      · intro e he
        split at he
        · cases he
        · rw [List.mem_singleton] at he
          exact ⟨_, _, he⟩
      · intro p hp
        rw [process_upload_task_err t uploader fs now p0 rest msg hpaths hup,
          hclean, cleanup_local_files_true]
        exact (cleanup_loop_removes (p0 :: rest) fs p hp).2

/-- Witness for `C9_cleanup_before_callback`: a one-artifact item with the
default cleanup policy. -/
theorem C9_cleanup_before_callback_witness :
    ∃ pre cbs,
      (process_upload_task (⟨"t1", some "http://h", ["a"], none⟩ : UploadTask)
        (fun p => Except.ok ("u/" ++ p)) ["a"] 0).1 = pre ++ cbs ∧
      (∀ p ∈ (⟨"t1", some "http://h", ["a"], none⟩ : UploadTask).output_paths,
        p ∈ ["a"] → Ev.remove p ∈ pre) ∧
      (∀ e ∈ pre, ∀ u pl, ¬ e = Ev.callback u pl) ∧
      (∀ e ∈ cbs, ∃ u pl, e = Ev.callback u pl) ∧
      (∀ p ∈ (⟨"t1", some "http://h", ["a"], none⟩ : UploadTask).output_paths,
        ¬ p ∈ (process_upload_task
          (⟨"t1", some "http://h", ["a"], none⟩ : UploadTask)
          (fun p => Except.ok ("u/" ++ p)) ["a"] 0).2) :=
  C9_cleanup_before_callback (⟨"t1", some "http://h", ["a"], none⟩ : UploadTask)
    (fun p => Except.ok ("u/" ++ p)) ["a"] 0 rfl

/-! ## Processing worker -/

/-- C8: on an `AudioTooQuietError`, `process_single_task` pushes nothing to
the upload queue and sends exactly one failure callback whose body carries
status "failed", the error message, and the stable `AUDIO_TOO_QUIET` code,
with no `s3_url` key; the handler's partial-artifact removal has nothing to
remove (the local `output_path` is unassigned when
`voice_processor.process_single` raises), so no file is touched, and the
function returns normally so the worker loop continues. -/
theorem C8_audio_too_quiet (task : Task) (msg : String) (fs : List String)
    (now : ℤ) (cfg : Option Bool) (hhook : ¬ task.data.hook_url = "") :
    process_single_task task
        (SynthOutcome.audioTooQuiet msg AUDIO_TOO_QUIET_CODE) fs now cfg
      = { upload_pushes := [],
          callbacks := [(task.data.hook_url,
            { task_uuid := task.task_id, status := "failed", timestamp := now,
              error_message := some msg,
              error_code := some AUDIO_TOO_QUIET_CODE })],
          removed_files := [] } ∧
    (build_failure_callback_data task.task_id msg
        (some AUDIO_TOO_QUIET_CODE) now).s3_url = none ∧
    (build_failure_callback_data task.task_id msg
        (some AUDIO_TOO_QUIET_CODE) now).error_code
      = some AUDIO_TOO_QUIET_CODE := by
  refine ⟨?_, rfl, ?_⟩
  · show WorkerEffects.mk []
        (if task.data.hook_url = "" then []
         else [(task.data.hook_url,
           build_failure_callback_data task.task_id msg
             (some AUDIO_TOO_QUIET_CODE) now)])
        [] = _
    rw [if_neg hhook]
    unfold build_failure_callback_data
    rw [if_neg (by simp [AUDIO_TOO_QUIET_CODE])]
  · unfold build_failure_callback_data
    rw [if_neg (by simp [AUDIO_TOO_QUIET_CODE])]

/-- Witness for `C8_audio_too_quiet` on a concrete task. -/
theorem C8_audio_too_quiet_witness :
    process_single_task sampleTaskP1
        (SynthOutcome.audioTooQuiet "Reference audio too quiet"
          AUDIO_TOO_QUIET_CODE) [] 0 none
      = { upload_pushes := [],
          callbacks := [("http://x",
            { task_uuid := "B", status := "failed", timestamp := 0,
              error_message := some "Reference audio too quiet",
              error_code := some AUDIO_TOO_QUIET_CODE })],
          removed_files := [] } := by
  have h := (C8_audio_too_quiet sampleTaskP1 "Reference audio too quiet"
    [] 0 none (by simp [sampleTaskP1, sampleData])).1
  simpa [sampleTaskP1, sampleData] using h

end TTS
